import Mathlib

/-
  Verification development for rviz_camera_stream (src/camera_display.cpp).

  Shallow embedding conventions:
  * C++ float/double values are modelled as exact rationals.  A value that may
    be NaN or ±Inf is modelled by the type Fl := Option ℚ, where `none`
    stands for any non-finite value and `some q` for the finite value q.
    Division by zero produces `none` (in IEEE arithmetic it produces Inf or
    NaN, both non-finite), and every arithmetic operation with a non-finite
    operand produces `none` (in IEEE it produces Inf or NaN; the cases where
    an IEEE operation maps a non-finite operand back to a finite value, such
    as 1/Inf, do not occur on the paths modelled here).  Overflow of finite
    values is not modelled.
  * ros::Time stamps are modelled as natural numbers (nanoseconds).
  * ROS message fields that the translated code never reads are omitted.
-/

/-- A C++ double: `some q` is a finite value, `none` is NaN or ±Inf. -/
abbrev Fl := Option ℚ

/-- rviz validateFloats on a single value: true iff the value is finite. -/
def flIsFinite (a : Fl) : Bool := a.isSome

/-- The rational carried by a finite value (callers only use this after a
finiteness check has passed; 0 is a junk default for the `none` case). -/
def flVal (a : Fl) : ℚ := a.getD 0

/-- Negation of a double. -/
def fneg (a : Fl) : Fl := a.map (fun r => -r)

/-- Division of doubles: division by zero gives a non-finite result
(IEEE Inf or NaN), as does any non-finite operand. -/
def fdiv (a b : Fl) : Fl :=
  match a, b with
  | some p, some q => if q = 0 then none else some (p / q)
  | _, _ => none

/-- Addition of doubles, propagating non-finiteness. -/
def fadd (a b : Fl) : Fl :=
  match a, b with
  | some p, some q => some (p + q)
  | _, _ => none

/-- Finite * possibly-non-finite (IEEE: any product with NaN is NaN and with
Inf is Inf or NaN, hence non-finite). -/
def fmulQ (p : ℚ) (a : Fl) : Fl := a.map (fun r => p * r)

/-- Ogre::Vector3 with finite components. -/
structure Vec3 where
  x : ℚ
  y : ℚ
  z : ℚ
deriving DecidableEq

/-- Ogre::Vector3 whose components may be non-finite. -/
structure FVec3 where
  x : Fl
  y : Fl
  z : Fl
deriving DecidableEq

def toFVec (v : Vec3) : FVec3 := ⟨some v.x, some v.y, some v.z⟩

def fvAdd (a b : FVec3) : FVec3 := ⟨fadd a.x b.x, fadd a.y b.y, fadd a.z b.z⟩

/-- `v * t` for a finite vector `v` and a scalar `t` that may be non-finite. -/
def fvScale (v : Vec3) (t : Fl) : FVec3 := ⟨fmulQ v.x t, fmulQ v.y t, fmulQ v.z t⟩

/-- rviz validateFloats(Ogre::Vector3): all three components finite. -/
def validateFloatsVec (v : FVec3) : Bool :=
  flIsFinite v.x && flIsFinite v.y && flIsFinite v.z

def vCross (a b : Vec3) : Vec3 :=
  ⟨a.y * b.z - a.z * b.y, a.z * b.x - a.x * b.z, a.x * b.y - a.y * b.x⟩

def vAdd (a b : Vec3) : Vec3 := ⟨a.x + b.x, a.y + b.y, a.z + b.z⟩

def vScale (c : ℚ) (v : Vec3) : Vec3 := ⟨c * v.x, c * v.y, c * v.z⟩

/-- Ogre::Quaternion (w, x, y, z). -/
structure Quat where
  w : ℚ
  x : ℚ
  y : ℚ
  z : ℚ
deriving DecidableEq

/-- Ogre::Quaternion::operator* (Hamilton product). -/
def quatMul (p q : Quat) : Quat :=
  ⟨p.w * q.w - p.x * q.x - p.y * q.y - p.z * q.z,
   p.w * q.x + p.x * q.w + p.y * q.z - p.z * q.y,
   p.w * q.y + p.y * q.w + p.z * q.x - p.x * q.z,
   p.w * q.z + p.z * q.w + p.x * q.y - p.y * q.x⟩

/-- Ogre::Quaternion::operator*(Vector3): rotate a vector by the quaternion
(nVidia SDK formula used by Ogre). -/
def qRotate (q : Quat) (v : Vec3) : Vec3 :=
  let qvec : Vec3 := ⟨q.x, q.y, q.z⟩
  let uv := vCross qvec v
  let uuv := vCross qvec uv
  vAdd (vAdd v (vScale (2 * q.w) uv)) (vScale 2 uuv)

def unitX : Vec3 := ⟨1, 0, 0⟩
def unitY : Vec3 := ⟨0, 1, 0⟩
def unitZ : Vec3 := ⟨0, 0, 1⟩

/-- Ogre::Quaternion(Ogre::Degree(180), axis): the half angle is 90 degrees,
so w = cos 90 = 0 and the vector part is sin 90 * axis = axis, exactly. -/
def quatRot180 (axis : Vec3) : Quat := ⟨0, axis.x, axis.y, axis.z⟩

/-- camera_display.cpp line 458: convert vision (Z-forward) frame to ogre
frame (Z-out) by right-multiplying with Quaternion(Degree(180), UNIT_X). -/
def convertOrientation (q : Quat) : Quat := quatMul q (quatRot180 unitX)

/-- sensor_msgs::CameraInfo as read by updateCamera. -/
structure CameraInfoMsg where
  width : ℕ
  height : ℕ
  D : List Fl
  K : Fin 9 → Fl
  R : Fin 9 → Fl
  P : Fin 12 → Fl

def allFinite (l : List Fl) : Bool := l.all flIsFinite

/-- camera_display.cpp lines 135-143: validateFloats(sensor_msgs::CameraInfo)
checks every entry of D, K, R and P for NaN/Inf. -/
def validateFloatsInfo (m : CameraInfoMsg) : Bool :=
  allFinite m.D && allFinite (List.ofFn m.K) &&
  allFinite (List.ofFn m.R) && allFinite (List.ofFn m.P)

/-- sensor_msgs::Image header fields read by updateCamera. -/
structure ImageMsg where
  stamp : ℕ
  frameId : String
deriving DecidableEq

inductive SyncMode
  | approximate
  | exact
deriving DecidableEq

inductive StatusLevel
  | ok
  | warn
  | error
deriving DecidableEq

/-- One setStatus(level, channel, text) call. -/
structure Status where
  level : StatusLevel
  channel : String
  text : String
deriving DecidableEq

def msgInvalidFloats : String :=
  "Contains invalid floating point values (nans or infs)"

/-- The numeric timestamp interpolated in the source message is elided. -/
def msgTimeSync : String :=
  "Time-syncing active and no image at timestamp."

def msgMalformedDims : String :=
  "Could not determine width/height of image due to malformed CameraInfo (either width or height is 0)"

def msgInvalidPosition : String :=
  "CameraInfo/P resulted in an invalid position calculation (nans or infs)"

/-- The corners of an Ogre::Rectangle2D (setCorners left, top, right, bottom). -/
structure Corners where
  left : ℚ
  top : ℚ
  right : ℚ
  bottom : ℚ
deriving DecidableEq

/-- The virtual-camera state mutated by a successful updateCamera: position,
orientation, custom projection matrix, and the two screen-rectangle corners. -/
structure CamState where
  position : FVec3
  orientation : Quat
  proj : Fin 4 → Fin 4 → ℚ
  bgCorners : Corners
  fgCorners : Corners
deriving DecidableEq

/-- All inputs updateCamera reads: the snapshotted messages, texture fallback
dimensions, frame-manager time and sync mode, viewport size, and the result
of the getTransform pose lookup (success flag plus output parameters; the
flag is an input because the lookup service is external). -/
structure UpdateInputs where
  info : Option CameraInfoMsg
  image : Option ImageMsg
  texWidth : ℕ
  texHeight : ℕ
  rvizTime : ℕ
  syncMode : SyncMode
  winWidth : ℕ
  winHeight : ℕ
  lookupOk : Bool
  lookupPos : Vec3
  lookupOrient : Quat

/-- Return value, camera state after the call, and the setStatus calls made
during the call, in order. -/
structure UpdateResult where
  ret : Bool
  state : CamState
  statuses : List Status

def imgAspectOf (imgW imgH : ℕ) (fx fy : ℚ) : ℚ :=
  ((imgW : ℚ) / fx) / ((imgH : ℚ) / fy)

def winAspectOf (winW winH : ℕ) : ℚ := (winW : ℚ) / (winH : ℚ)

/-- camera_display.cpp lines 486-505: zoom_x = zoom_y = 1.0, then if both
viewport dimensions are non-zero shrink one factor to preserve aspect:
zoom_y becomes zoom_y / img_aspect * win_aspect when img_aspect > win_aspect,
otherwise zoom_x becomes zoom_x / win_aspect * img_aspect (the initial 1.0
values are inlined). -/
def computeZoom (imgW imgH : ℕ) (fx fy : ℚ) (winW winH : ℕ) : ℚ × ℚ :=
  if winW ≠ 0 ∧ winH ≠ 0 then
    if imgAspectOf imgW imgH fx fy > winAspectOf winW winH then
      (1, 1 / imgAspectOf imgW imgH fx fy * winAspectOf winW winH)
    else
      (1 / winAspectOf winW winH * imgAspectOf imgW imgH fx fy, 1)
  else
    (1, 1)

/-- camera_display.cpp lines 507-514: translate the position along the
rotated X axis by tx = -(P[3]/fx) and along the rotated Y axis by
ty = -(P[7]/fy).  Non-finiteness (e.g. division by fx = 0) propagates. -/
def computeTranslatedPosition (pos0 : Vec3) (ori : Quat) (p3 p7 fx fy : ℚ) : FVec3 :=
  let tx := fneg (fdiv (some p3) (some fx))
  let right := qRotate ori unitX
  let pos1 := fvAdd (toFVec pos0) (fvScale right tx)
  let ty := fneg (fdiv (some p7) (some fy))
  let down := qRotate ori unitY
  fvAdd pos1 (fvScale down ty)

def farPlane : ℚ := 100
def nearPlane : ℚ := 1 / 100

/-- camera_display.cpp lines 530-545: the off-axis projection matrix, built
from Matrix4::ZERO with six assigned entries. -/
def computeProjMatrix (fx fy cx cy : ℚ) (imgW imgH : ℕ) (zoomX zoomY : ℚ) :
    Fin 4 → Fin 4 → ℚ :=
  ![![2 * fx / (imgW : ℚ) * zoomX, 0, 2 * ((1 : ℚ) / 2 - cx / (imgW : ℚ)) * zoomX, 0],
    ![0, 2 * fy / (imgH : ℚ) * zoomY, 2 * (cy / (imgH : ℚ) - (1 : ℚ) / 2) * zoomY, 0],
    ![0, 0, -(farPlane + nearPlane) / (farPlane - nearPlane),
      -2 * farPlane * nearPlane / (farPlane - nearPlane)],
    ![0, 0, -1, 0]]

/-- The camera state written on the success path (lines 523-524, 547,
558-559), assembled from the same intermediate values the source computes. -/
def successState (inp : UpdateInputs) (info : CameraInfoMsg) : CamState :=
  let imgWidth := if info.width = 0 then inp.texWidth else info.width
  let imgHeight := if info.height = 0 then inp.texHeight else info.height
  let fx := flVal (info.P 0)
  let fy := flVal (info.P 5)
  let orientation := convertOrientation inp.lookupOrient
  let zoom := computeZoom imgWidth imgHeight fx fy inp.winWidth inp.winHeight
  let position := computeTranslatedPosition inp.lookupPos orientation
      (flVal (info.P 3)) (flVal (info.P 7)) fx fy
  let proj := computeProjMatrix fx fy (flVal (info.P 2)) (flVal (info.P 6))
      imgWidth imgHeight zoom.1 zoom.2
  let corners : Corners := ⟨-1 * zoom.1, 1 * zoom.2, 1 * zoom.1, -1 * zoom.2⟩
  ⟨position, orientation, proj, corners, corners⟩

/-- The guard chain of updateCamera once both messages are present, with the
result of each path, in source order: invalid floats in the CameraInfo
(lines 434-438), exact-sync timestamp mismatch (lines 442-449),
unresolvable image dimensions (lines 476-481), non-finite translated
position (lines 516-521), then the success path (lines 523-569).  Every
rejecting path returns false and leaves the camera state unchanged; the
success path writes the state assembled by successState and returns true. -/
def updateCameraChecked (inp : UpdateInputs) (info : CameraInfoMsg)
    (image : ImageMsg) (s : CamState) : UpdateResult :=
  if validateFloatsInfo info = false then
    ⟨false, s, [⟨StatusLevel.error, "Camera Info", msgInvalidFloats⟩]⟩
  else if inp.syncMode = SyncMode.exact ∧ inp.rvizTime ≠ image.stamp then
    ⟨false, s, [⟨StatusLevel.warn, "Time", msgTimeSync⟩]⟩
  else if (if info.height = 0 then inp.texHeight else info.height) = 0 ∨
          (if info.width = 0 then inp.texWidth else info.width) = 0 then
    ⟨false, s, [⟨StatusLevel.error, "Camera Info", msgMalformedDims⟩]⟩
  else if validateFloatsVec (computeTranslatedPosition inp.lookupPos
            (convertOrientation inp.lookupOrient)
            (flVal (info.P 3)) (flVal (info.P 7))
            (flVal (info.P 0)) (flVal (info.P 5))) = false then
    ⟨false, s, [⟨StatusLevel.error, "Camera Info", msgInvalidPosition⟩]⟩
  else
    ⟨true, successState inp info,
     [⟨StatusLevel.ok, "Camera Info", "OK"⟩,
      ⟨StatusLevel.ok, "Time", "ok"⟩,
      ⟨StatusLevel.ok, "Camera Info", "ok"⟩]⟩

/-- CameraPub::updateCamera (lines 418-570): returns false with no status
when either snapshotted message is missing (lines 429-432), otherwise runs
the guard chain.  The getTransform success flag (line 453) is not consulted
anywhere: the source ignores the return value. -/
def updateCamera (inp : UpdateInputs) (s : CamState) : UpdateResult :=
  match inp.info, inp.image with
  | none, _ => ⟨false, s, []⟩
  | _, none => ⟨false, s, []⟩
  | some info, some image => updateCameraChecked inp info image s

/-- Visibility of the background and overlay scene nodes. -/
structure VisState where
  bg : Bool
  fg : Bool
deriving DecidableEq

/-- The Image Rendering property values (lines 131-133). -/
inductive RenderMode
  | background
  | overlay
  | both
deriving DecidableEq

/-- CameraPub::preRenderTargetUpdate (lines 284-292): set each surface
visible iff the last updateCamera succeeded (caminfo_ok_) and the render
mode selects that surface. -/
def preRenderTargetUpdate (caminfoOk : Bool) (mode : RenderMode) (_s : VisState) :
    VisState :=
  ⟨caminfoOk && (decide (mode = RenderMode.background) || decide (mode = RenderMode.both)),
   caminfoOk && (decide (mode = RenderMode.overlay) || decide (mode = RenderMode.both))⟩

/-- The statements of CameraPub::postRenderTargetUpdate, in order. -/
inductive RenderAction
  | setBgVisible (b : Bool)
  | setFgVisible (b : Bool)
  | publishFrameAction
deriving DecidableEq

/-- CameraPub::postRenderTargetUpdate (lines 294-301): unconditionally hide
both surfaces, then publish the rendered window. -/
def postRenderActions : List RenderAction :=
  [RenderAction.setBgVisible false, RenderAction.setFgVisible false,
   RenderAction.publishFrameAction]

def applyRenderAction (s : VisState) : RenderAction → VisState
  | RenderAction.setBgVisible b => ⟨b, s.fg⟩
  | RenderAction.setFgVisible b => ⟨s.bg, b⟩
  | RenderAction.publishFrameAction => s

def runRenderActions (s : VisState) (acts : List RenderAction) : VisState :=
  acts.foldl applyRenderAction s

/-- What VideoPublisher::publishFrame (lines 91-123) allocates and reads
back: allocSize is the OGRE_ALLOC_T count datasize * 1.05 (modelled exactly
as datasize * 21 / 20 with truncating division; the C code truncates the
double product to an integer count), boxW/boxH are the PixelBox dimensions
passed to copyContentsToMemory, and dataBytes is the byte count copied into
the outgoing message. -/
structure CaptureAlloc where
  allocSize : ℕ
  boxW : ℕ
  boxH : ℕ
  dataBytes : ℕ
deriving DecidableEq

/-- VideoPublisher::publishFrame: returns none (no allocation, no publish)
when no topic is advertised (line 93), otherwise the allocation made from
the queried width, height and pixel size. -/
def publishFrame (topic : String) (width height pixelsize : ℕ) :
    Option CaptureAlloc :=
  if topic = "" then none
  else
    let datasize := width * height * pixelsize
    some ⟨datasize * 21 / 20, width, height, datasize⟩

/-- The configuration inputs visible to CameraPub::subscribe (lines 316-343). -/
structure DisplayConfig where
  enabled : Bool
  imageTopic : String
  fixedFrame : String
  queueSize : ℕ
deriving DecidableEq

/-- CameraPub::subscribe: returns the topic advertised for the output video
stream, or none when the guard at line 318 returns early.  The advertised
name is the literal "rviz_out" (line 342), independent of the config. -/
def subscribeAdvertised (cfg : DisplayConfig) : Option String :=
  if cfg.enabled = false ∨ cfg.imageTopic = "" then none
  else some "rviz_out"

/-- The CameraInfo of the end-to-end example: 640x480,
P = [500,0,320,0, 0,500,240,0, 0,0,1,0], with K and R filled in
consistently and D all zero (all entries finite). -/
def infoNominal : CameraInfoMsg :=
  { width := 640, height := 480,
    D := [some 0, some 0, some 0, some 0, some 0],
    K := ![some 500, some 0, some 320, some 0, some 500, some 240,
           some 0, some 0, some 1],
    R := ![some 1, some 0, some 0, some 0, some 1, some 0,
           some 0, some 0, some 1],
    P := ![some 500, some 0, some 320, some 0,
           some 0, some 500, some 240, some 0,
           some 0, some 0, some 1, some 0] }

def imageNominal : ImageMsg := ⟨1000, "camera"⟩

/-- A camera state as left by CameraPub::clear (line 397 parks the camera at
(999999, 999999, 999999)); identity orientation, zero matrix, unit corners. -/
def s0 : CamState :=
  { position := toFVec ⟨999999, 999999, 999999⟩,
    orientation := ⟨1, 0, 0, 0⟩,
    proj := fun _ _ => 0,
    bgCorners := ⟨-1, 1, 1, -1⟩,
    fgCorners := ⟨-1, 1, 1, -1⟩ }

/-- The end-to-end example inputs: nominal messages, matching timestamps,
identity pose at the origin, 640x480 viewport. -/
def inpNominal : UpdateInputs :=
  { info := some infoNominal, image := some imageNominal,
    texWidth := 640, texHeight := 480,
    rvizTime := 1000, syncMode := SyncMode.exact,
    winWidth := 640, winHeight := 480,
    lookupOk := true,
    lookupPos := ⟨0, 0, 0⟩, lookupOrient := ⟨1, 0, 0, 0⟩ }

/-- Modelled from the spec: the spec (section 4.1) asks that the orientation
be pre-multiplied by a fixed 180-degree rotation about the forward axis; in
the Z-forward sensor convention the forward axis is Z, so this is
Quaternion(Degree(180), UNIT_Z) * orientation. -/
def specPreMultiplyForward (q : Quat) : Quat := quatMul (quatRot180 unitZ) q

/-- A CameraInfo with valid floats whose height is 0 (width 640): used to
exercise the malformed-dimensions rejection with only one zero dimension. -/
def infoZeroHeight : CameraInfoMsg :=
  { width := 640, height := 0,
    D := [some 0, some 0, some 0, some 0, some 0],
    K := ![some 500, some 0, some 320, some 0, some 500, some 240,
           some 0, some 0, some 1],
    R := ![some 1, some 0, some 0, some 0, some 1, some 0,
           some 0, some 0, some 1],
    P := ![some 500, some 0, some 320, some 0,
           some 0, some 500, some 240, some 0,
           some 0, some 0, some 1, some 0] }

/-- Inputs with a zero intrinsics height and a zero fallback image height:
the width is perfectly fine (640). -/
def inpZeroHeight : UpdateInputs :=
  { info := some infoZeroHeight, image := some imageNominal,
    texWidth := 640, texHeight := 0,
    rvizTime := 1000, syncMode := SyncMode.approximate,
    winWidth := 640, winHeight := 480,
    lookupOk := true,
    lookupPos := ⟨0, 0, 0⟩, lookupOrient := ⟨1, 0, 0, 0⟩ }

/-- Nominal inputs whose pose lookup failed (getTransform returned false);
the lookup output parameters hold whatever the frame manager left there. -/
def inpLookupFailed : UpdateInputs :=
  { inpNominal with lookupOk := false }

/-- Inputs with both messages missing: the earliest rejecting path. -/
def inpMissing : UpdateInputs :=
  { inpNominal with info := none, image := none }

set_option maxRecDepth 4000

/-- Inputs identical to the nominal ones except that the frame-manager time
disagrees with the image timestamp (and the sync mode is exact). -/
def inpSyncMismatch : UpdateInputs :=
  { inpNominal with rvizTime := 2000 }

theorem updateCamera_some (inp : UpdateInputs) (info : CameraInfoMsg)
    (image : ImageMsg) (s : CamState)
    (hi : inp.info = some info) (him : inp.image = some image) :
    updateCamera inp s = updateCameraChecked inp info image s := by
  unfold updateCamera
  rw [hi, him]

theorem fallbackDim_eq_zero (n t : ℕ) :
    ((if n = 0 then t else n) = 0) ↔ (n = 0 ∧ t = 0) := by
  split <;> simp_all

theorem updateCameraChecked_ret_true (inp : UpdateInputs) (info : CameraInfoMsg)
    (image : ImageMsg) (s : CamState)
    (h : (updateCameraChecked inp info image s).ret = true) :
    updateCameraChecked inp info image s =
      ⟨true, successState inp info,
       [⟨StatusLevel.ok, "Camera Info", "OK"⟩,
        ⟨StatusLevel.ok, "Time", "ok"⟩,
        ⟨StatusLevel.ok, "Camera Info", "ok"⟩]⟩ := by
  unfold updateCameraChecked at h ⊢
  by_cases h1 : validateFloatsInfo info = false
  · rw [if_pos h1] at h; exact absurd h (by simp)
  · rw [if_neg h1] at h ⊢
    by_cases h2 : inp.syncMode = SyncMode.exact ∧ inp.rvizTime ≠ image.stamp
    · rw [if_pos h2] at h; exact absurd h (by simp)
    · rw [if_neg h2] at h ⊢
      by_cases h3 : (if info.height = 0 then inp.texHeight else info.height) = 0 ∨
          (if info.width = 0 then inp.texWidth else info.width) = 0
      · rw [if_pos h3] at h; exact absurd h (by simp)
      · rw [if_neg h3] at h ⊢
        by_cases h4 : validateFloatsVec (computeTranslatedPosition inp.lookupPos
            (convertOrientation inp.lookupOrient)
            (flVal (info.P 3)) (flVal (info.P 7))
            (flVal (info.P 0)) (flVal (info.P 5))) = false
        · rw [if_pos h4] at h; exact absurd h (by simp)
        · rw [if_neg h4]

theorem updateCameraChecked_ret_false (inp : UpdateInputs) (info : CameraInfoMsg)
    (image : ImageMsg) (s : CamState)
    (h : (updateCameraChecked inp info image s).ret = false) :
    (updateCameraChecked inp info image s).state = s := by
  unfold updateCameraChecked at h ⊢
  by_cases h1 : validateFloatsInfo info = false
  · rw [if_pos h1]
  · rw [if_neg h1] at h ⊢
    by_cases h2 : inp.syncMode = SyncMode.exact ∧ inp.rvizTime ≠ image.stamp
    · rw [if_pos h2]
    · rw [if_neg h2] at h ⊢
      by_cases h3 : (if info.height = 0 then inp.texHeight else info.height) = 0 ∨
          (if info.width = 0 then inp.texWidth else info.width) = 0
      · rw [if_pos h3]
      · rw [if_neg h3] at h ⊢
        by_cases h4 : validateFloatsVec (computeTranslatedPosition inp.lookupPos
            (convertOrientation inp.lookupOrient)
            (flVal (info.P 3)) (flVal (info.P 7))
            (flVal (info.P 0)) (flVal (info.P 5))) = false
        · rw [if_pos h4]
        · rw [if_neg h4] at h; exact absurd h (by simp)

/-- C1: end-to-end: with intrinsics width 640, height 480,
P = [500,0,320,0, 0,500,240,0, 0,0,1,0], an identity pose at the origin and
a 640x480 viewport, the resolve succeeds, the zoom factors are
zoomX = zoomY = 1, the projection matrix entries [0][2] and [1][2] are 0,
and the camera position receives no baseline translation offset: it stays
at the pose position. -/
theorem C1_end_to_end :
    computeZoom 640 480 500 500 640 480 = (1, 1) ∧
    (updateCamera inpNominal s0).ret = true ∧
    (updateCamera inpNominal s0).state.proj 0 2 = 0 ∧
    (updateCamera inpNominal s0).state.proj 1 2 = 0 ∧
    (updateCamera inpNominal s0).state.position = toFVec inpNominal.lookupPos := by
  refine ⟨?_, ?_, ?_, ?_, ?_⟩ <;> with_unfolding_all decide

/-- C2: for positive focal lengths and non-zero image and viewport
dimensions, the zoom factors follow the aspect trichotomy: when
imgAspect > winAspect, zoomX = 1 and zoomY = winAspect/imgAspect < 1; when
imgAspect < winAspect, zoomY = 1 and zoomX = imgAspect/winAspect < 1; when
they are equal, zoomX = zoomY = 1. -/
theorem C2_zoom_trichotomy (imgW imgH winW winH : ℕ) (fx fy : ℚ)
    (hfx : 0 < fx) (hfy : 0 < fy) (hiw : imgW ≠ 0) (hih : imgH ≠ 0)
    (hww : winW ≠ 0) (hwh : winH ≠ 0) :
    (imgAspectOf imgW imgH fx fy > winAspectOf winW winH →
      (computeZoom imgW imgH fx fy winW winH).1 = 1 ∧
      (computeZoom imgW imgH fx fy winW winH).2 =
        winAspectOf winW winH / imgAspectOf imgW imgH fx fy ∧
      (computeZoom imgW imgH fx fy winW winH).2 < 1) ∧
    (imgAspectOf imgW imgH fx fy < winAspectOf winW winH →
      (computeZoom imgW imgH fx fy winW winH).2 = 1 ∧
      (computeZoom imgW imgH fx fy winW winH).1 =
        imgAspectOf imgW imgH fx fy / winAspectOf winW winH ∧
      (computeZoom imgW imgH fx fy winW winH).1 < 1) ∧
    (imgAspectOf imgW imgH fx fy = winAspectOf winW winH →
      computeZoom imgW imgH fx fy winW winH = (1, 1)) := by
  have hwp : (0 : ℚ) < (winW : ℚ) := by exact_mod_cast Nat.pos_of_ne_zero hww
  have hhp : (0 : ℚ) < (winH : ℚ) := by exact_mod_cast Nat.pos_of_ne_zero hwh
  have hwa : 0 < winAspectOf winW winH := div_pos hwp hhp
  have hiwp : (0 : ℚ) < (imgW : ℚ) := by exact_mod_cast Nat.pos_of_ne_zero hiw
  have hihp : (0 : ℚ) < (imgH : ℚ) := by exact_mod_cast Nat.pos_of_ne_zero hih
  have hia : 0 < imgAspectOf imgW imgH fx fy :=
    div_pos (div_pos hiwp hfx) (div_pos hihp hfy)
  refine ⟨?_, ?_, ?_⟩ <;> intro h
  · unfold computeZoom
    rw [if_pos ⟨hww, hwh⟩, if_pos h]
    refine ⟨rfl, one_div_mul_eq_div _ _, ?_⟩
    rw [one_div_mul_eq_div]
    exact (div_lt_one hia).mpr h
  · unfold computeZoom
    rw [if_pos ⟨hww, hwh⟩, if_neg (not_lt.mpr h.le)]
    refine ⟨rfl, one_div_mul_eq_div _ _, ?_⟩
    rw [one_div_mul_eq_div]
    exact (div_lt_one hwa).mpr h
  · unfold computeZoom
    rw [if_pos ⟨hww, hwh⟩, if_neg (not_lt.mpr h.le)]
    rw [Prod.mk.injEq]
    refine ⟨?_, rfl⟩
    rw [h, one_div_mul_cancel hwa.ne']

/-- C2 witness: concrete instance of the second case of the trichotomy with
a viewport twice as wide as the image aspect. -/
theorem C2_zoom_trichotomy_witness :
    (computeZoom 640 480 500 500 1280 480).2 = 1 ∧
    (computeZoom 640 480 500 500 1280 480).1 =
      imgAspectOf 640 480 500 500 / winAspectOf 1280 480 ∧
    (computeZoom 640 480 500 500 1280 480).1 < 1 :=
  (C2_zoom_trichotomy 640 480 1280 480 500 500
    (by norm_num) (by norm_num) (by norm_num) (by norm_num) (by norm_num) (by norm_num)).2.1
    (by with_unfolding_all decide)

/-- C3 counterexample: at the nominal inputs, whose incoming orientation is
the identity quaternion, the resolve succeeds and the orientation it uses is
(0,1,0,0) — the incoming orientation multiplied on the right by the
180-degree rotation about the X axis — whereas pre-multiplying the incoming
orientation by a 180-degree rotation about the forward (Z) axis, as the
claim states, would give (0,0,0,1).  The two disagree. -/
theorem C3_counterexample :
    (updateCamera inpNominal s0).ret = true ∧
    (updateCamera inpNominal s0).state.orientation = ⟨0, 1, 0, 0⟩ ∧
    specPreMultiplyForward inpNominal.lookupOrient = ⟨0, 0, 0, 1⟩ ∧
    (updateCamera inpNominal s0).state.orientation ≠
      specPreMultiplyForward inpNominal.lookupOrient := by
  refine ⟨?_, ?_, ?_, ?_⟩ <;> with_unfolding_all decide

/-- C3 amended: in every successful camera resolve, the orientation assigned
to the virtual camera is the incoming pose orientation post-multiplied
(multiplied on the right) by the fixed 180-degree rotation about the X axis,
the quaternion (0,1,0,0) — converting the Z-forward sensor convention to the
Z-out-of-screen rendering convention — and the baseline translation of the
position is computed from that converted orientation. -/
theorem C3_amended (inp : UpdateInputs) (info : CameraInfoMsg) (image : ImageMsg)
    (s : CamState) (hi : inp.info = some info) (him : inp.image = some image)
    (h : (updateCamera inp s).ret = true) :
    (updateCamera inp s).state.orientation =
      quatMul inp.lookupOrient (quatRot180 unitX) ∧
    (updateCamera inp s).state.position =
      computeTranslatedPosition inp.lookupPos
        (quatMul inp.lookupOrient (quatRot180 unitX))
        (flVal (info.P 3)) (flVal (info.P 7))
        (flVal (info.P 0)) (flVal (info.P 5)) := by
  rw [updateCamera_some inp info image s hi him] at h ⊢
  rw [updateCameraChecked_ret_true inp info image s h]
  exact ⟨rfl, rfl⟩

/-- C3 amended witness: the amended statement instantiated at the nominal
inputs. -/
theorem C3_amended_witness :
    (updateCamera inpNominal s0).state.orientation =
      quatMul inpNominal.lookupOrient (quatRot180 unitX) :=
  (C3_amended inpNominal infoNominal imageNominal s0 rfl rfl
    (by with_unfolding_all decide)).1

/-- C4: the camera resolve is atomic: whenever updateCamera returns false
(any rejecting path) the camera state — position, orientation, projection
matrix and screen-rectangle corners — is exactly the state before the call;
whenever it returns true the state is the fully assembled successState, so
position, orientation and projection matrix are all updated in the same
call. -/
theorem C4_atomic (inp : UpdateInputs) (s : CamState) :
    ((updateCamera inp s).ret = false → (updateCamera inp s).state = s) ∧
    ((updateCamera inp s).ret = true → ∀ info, inp.info = some info →
      (updateCamera inp s).state = successState inp info) := by
  rcases hi : inp.info with _ | info
  · constructor
    · intro _h
      unfold updateCamera
      rw [hi]
      cases inp.image <;> rfl
    · intro _h info hinfo
      cases hinfo
  · rcases him : inp.image with _ | image
    · constructor
      · intro _h
        unfold updateCamera
        rw [hi, him]
      · intro h info' hinfo
        unfold updateCamera at h
        rw [hi, him] at h
        simp at h
    · rw [updateCamera_some inp info image s hi him]
      constructor
      · intro h
        exact updateCameraChecked_ret_false inp info image s h
      · intro h info' hinfo
        cases hinfo
        rw [updateCameraChecked_ret_true inp info image s h]

/-- C4 witness: a rejecting call (missing messages) leaves the state
unchanged and a succeeding call (nominal inputs) writes the assembled
success state. -/
theorem C4_atomic_witness :
    (updateCamera inpMissing s0).state = s0 ∧
    (updateCamera inpNominal s0).state = successState inpNominal infoNominal :=
  ⟨(C4_atomic inpMissing s0).1 rfl,
   (C4_atomic inpNominal s0).2 (by with_unfolding_all decide) infoNominal rfl⟩

theorem allFinite_false (l : List Fl) :
    allFinite l = false ↔ ∃ a ∈ l, flIsFinite a = false := by
  unfold allFinite
  rw [← Bool.not_eq_true, List.all_eq_true]
  simp [not_forall]

theorem allFinite_ofFn_false {n : ℕ} (f : Fin n → Fl) :
    allFinite (List.ofFn f) = false ↔ ∃ i, flIsFinite (f i) = false := by
  unfold allFinite
  rw [← Bool.not_eq_true, List.all_eq_true]
  rw [List.forall_mem_ofFn_iff]
  simp [not_forall]

theorem validateFloatsInfo_false_iff (m : CameraInfoMsg) :
    validateFloatsInfo m = false ↔
      ((∃ a ∈ m.D, flIsFinite a = false) ∨ (∃ i, flIsFinite (m.K i) = false) ∨
       (∃ i, flIsFinite (m.R i) = false) ∨ (∃ i, flIsFinite (m.P i) = false)) := by
  rw [← Bool.not_eq_true]
  unfold validateFloatsInfo
  rw [Bool.and_eq_true, Bool.and_eq_true, Bool.and_eq_true]
  rw [not_and_or, not_and_or, not_and_or]
  rw [Bool.not_eq_true, Bool.not_eq_true, Bool.not_eq_true, Bool.not_eq_true]
  rw [allFinite_false, allFinite_ofFn_false, allFinite_ofFn_false, allFinite_ofFn_false]
  rw [or_assoc, or_assoc]

/-- C5 counterexample: a CameraInfo with valid floats, width 640 and height 0,
with no fallback height available, is rejected with the malformed
classification even though width and height are not both zero — refuting the
claim that the malformed rejection happens exactly when both are zero. -/
theorem C5_counterexample :
    (updateCamera inpZeroHeight s0).ret = false ∧
    Status.mk StatusLevel.error "Camera Info" msgMalformedDims ∈
      (updateCamera inpZeroHeight s0).statuses ∧
    ¬(infoZeroHeight.width = 0 ∧ infoZeroHeight.height = 0) := by
  refine ⟨?_, ?_, ?_⟩ <;> decide

/-- C5 amended: given both messages, the resolve rejects with the invalid
floating point classification (Error on the Camera Info channel) exactly
when some entry of D, K, R or P is NaN or Inf; with valid floats and the
sync check passing, it rejects with the malformed classification exactly
when a zero intrinsics dimension cannot be backfilled from the image
(width 0 with fallback width 0, or height 0 with fallback height 0 — either
one suffices, not both required); in both cases updateCamera returns
false. -/
theorem C5_amended_classification (inp : UpdateInputs) (info : CameraInfoMsg)
    (image : ImageMsg) (s : CamState)
    (hi : inp.info = some info) (him : inp.image = some image) :
    (Status.mk StatusLevel.error "Camera Info" msgInvalidFloats ∈
        (updateCamera inp s).statuses ↔
      ((∃ a ∈ info.D, flIsFinite a = false) ∨ (∃ i, flIsFinite (info.K i) = false) ∨
       (∃ i, flIsFinite (info.R i) = false) ∨ (∃ i, flIsFinite (info.P i) = false))) ∧
    (validateFloatsInfo info = true →
      ¬(inp.syncMode = SyncMode.exact ∧ inp.rvizTime ≠ image.stamp) →
      (Status.mk StatusLevel.error "Camera Info" msgMalformedDims ∈
          (updateCamera inp s).statuses ↔
        ((info.width = 0 ∧ inp.texWidth = 0) ∨ (info.height = 0 ∧ inp.texHeight = 0)))) ∧
    (Status.mk StatusLevel.error "Camera Info" msgInvalidFloats ∈
        (updateCamera inp s).statuses → (updateCamera inp s).ret = false) ∧
    (Status.mk StatusLevel.error "Camera Info" msgMalformedDims ∈
        (updateCamera inp s).statuses → (updateCamera inp s).ret = false) := by
  rw [updateCamera_some inp info image s hi him]
  rw [← validateFloatsInfo_false_iff]
  unfold updateCameraChecked
  by_cases h1 : validateFloatsInfo info = false
  · rw [if_pos h1]
    refine ⟨by simp [h1], ?_, fun _ => rfl, fun _ => rfl⟩
    intro hv _
    rw [hv] at h1
    cases h1
  · rw [if_neg h1]
    by_cases h2 : inp.syncMode = SyncMode.exact ∧ inp.rvizTime ≠ image.stamp
    · rw [if_pos h2]
      refine ⟨?_, ?_, fun _ => rfl, fun _ => rfl⟩
      · simp [h1, Status.mk.injEq]
      · intro _hv habs
        exact absurd h2 habs
    · rw [if_neg h2]
      by_cases h3 : (if info.height = 0 then inp.texHeight else info.height) = 0 ∨
          (if info.width = 0 then inp.texWidth else info.width) = 0
      · rw [if_pos h3]
        simp only [fallbackDim_eq_zero] at h3
        refine ⟨?_, ?_, fun _ => rfl, fun _ => rfl⟩
        · simp [h1, Status.mk.injEq, msgInvalidFloats, msgMalformedDims]
        · intro _hv _hns
          constructor
          · intro _
            exact h3.symm
          · intro _
            simp
      · rw [if_neg h3]
        simp only [fallbackDim_eq_zero] at h3
        by_cases h4 : validateFloatsVec (computeTranslatedPosition inp.lookupPos
            (convertOrientation inp.lookupOrient)
            (flVal (info.P 3)) (flVal (info.P 7))
            (flVal (info.P 0)) (flVal (info.P 5))) = false
        · rw [if_pos h4]
          refine ⟨?_, ?_, fun _ => rfl, fun _ => rfl⟩
          · simp [h1, Status.mk.injEq, msgInvalidFloats, msgInvalidPosition]
          · intro _hv _hns
            constructor
            · intro hmem
              exact absurd hmem (by simp [Status.mk.injEq, msgMalformedDims, msgInvalidPosition])
            · intro hr
              exact absurd hr.symm h3
        · rw [if_neg h4]
          refine ⟨?_, ?_, ?_, ?_⟩
          · simp [h1, Status.mk.injEq]
          · intro _hv _hns
            constructor
            · intro hmem
              exact absurd hmem (by simp [Status.mk.injEq])
            · intro hr
              exact absurd hr.symm h3
          · intro hmem
            exact absurd hmem (by simp [Status.mk.injEq])
          · intro hmem
            exact absurd hmem (by simp [Status.mk.injEq])

/-- C5 amended witness: the amended classification instantiated at the
zero-height counterexample inputs, giving the malformed rejection. -/
theorem C5_amended_witness :
    Status.mk StatusLevel.error "Camera Info" msgMalformedDims ∈
      (updateCamera inpZeroHeight s0).statuses :=
  ((C5_amended_classification inpZeroHeight infoZeroHeight imageNominal s0
      rfl rfl).2.1 (by decide) (by decide)).mpr (by decide)

/-- C6: in exact sync mode, when the frame-manager (pose) time differs from
the image timestamp, the resolve is skipped (returns false) and a Warn
status is set on the Time channel; when the two are equal the resolve
proceeds past the sync check (the sync warning is never emitted); in
approximate (best-effort) mode no timestamp comparison causes the sync
warning.  Stated for inputs whose messages are present with valid floats,
so the sync check is reached. -/
theorem C6_exact_sync (inp : UpdateInputs) (info : CameraInfoMsg)
    (image : ImageMsg) (s : CamState)
    (hi : inp.info = some info) (him : inp.image = some image)
    (hv : validateFloatsInfo info = true) :
    (inp.syncMode = SyncMode.exact → inp.rvizTime ≠ image.stamp →
      (updateCamera inp s).ret = false ∧
      Status.mk StatusLevel.warn "Time" msgTimeSync ∈ (updateCamera inp s).statuses) ∧
    (inp.rvizTime = image.stamp →
      Status.mk StatusLevel.warn "Time" msgTimeSync ∉ (updateCamera inp s).statuses) ∧
    (inp.syncMode = SyncMode.approximate →
      Status.mk StatusLevel.warn "Time" msgTimeSync ∉ (updateCamera inp s).statuses) := by
  rw [updateCamera_some inp info image s hi him]
  unfold updateCameraChecked
  rw [if_neg (by simp [hv] : ¬validateFloatsInfo info = false)]
  refine ⟨?_, ?_, ?_⟩
  · intro hm hne
    rw [if_pos ⟨hm, hne⟩]
    exact ⟨rfl, by simp⟩
  · intro heq
    rw [if_neg (by simp [heq] :
      ¬(inp.syncMode = SyncMode.exact ∧ inp.rvizTime ≠ image.stamp))]
    repeat' split
    all_goals simp [Status.mk.injEq]
  · intro ha
    rw [if_neg (by simp [ha] :
      ¬(inp.syncMode = SyncMode.exact ∧ inp.rvizTime ≠ image.stamp))]
    repeat' split
    all_goals simp [Status.mk.injEq]

/-- C6 witness: a concrete exact-mode run whose frame-manager time 2000
differs from the image timestamp 1000 is skipped with the Time warning. -/
theorem C6_exact_sync_witness :
    (updateCamera inpSyncMismatch s0).ret = false ∧
    Status.mk StatusLevel.warn "Time" msgTimeSync ∈
      (updateCamera inpSyncMismatch s0).statuses :=
  (C6_exact_sync inpSyncMismatch infoNominal imageNominal s0 rfl rfl
    (by decide)).1 rfl (by decide)

/-- C7 counterexample: on inputs whose pose lookup failed (getTransform
returned false) but which are otherwise valid, the resolve is NOT skipped:
it returns true, moves the camera away from its previous parked position,
and reports only Ok-level statuses — no warning at all — refuting the claim
that a pose-lookup failure skips the tick with a warning and no camera
update. -/
theorem C7_counterexample :
    inpLookupFailed.lookupOk = false ∧
    (updateCamera inpLookupFailed s0).ret = true ∧
    (updateCamera inpLookupFailed s0).state.position ≠ s0.position ∧
    (∀ st ∈ (updateCamera inpLookupFailed s0).statuses,
      st.level = StatusLevel.ok) := by
  refine ⟨rfl, ?_, ?_, ?_⟩ <;> with_unfolding_all decide

/-- C7 amended: updateCamera never consults the pose lookup's success flag:
its entire result — return value, camera state and statuses — is identical
whether the lookup succeeded or failed, for every input and prior state; the
resolve simply proceeds with whatever position and orientation the lookup
service left in its output parameters. -/
theorem C7_amended (inp : UpdateInputs) (b : Bool) (s : CamState) :
    updateCamera { inp with lookupOk := b } s = updateCamera inp s := by
  cases inp
  rfl

/-- C8: render-pass bracketing: at the start of a pass the background
surface is visible iff the last resolve succeeded and the mode is background
or both, and the overlay surface is visible iff the last resolve succeeded
and the mode is overlay or both; at the end of the pass both surfaces are
unconditionally hidden regardless of the prior state, and the frame publish
action comes only after both hides, so visibility never persists beyond a
single pass. -/
theorem C8_render_pass (ok : Bool) (mode : RenderMode) (s sEnd : VisState) :
    ((preRenderTargetUpdate ok mode s).bg = true ↔
      (ok = true ∧ (mode = RenderMode.background ∨ mode = RenderMode.both))) ∧
    ((preRenderTargetUpdate ok mode s).fg = true ↔
      (ok = true ∧ (mode = RenderMode.overlay ∨ mode = RenderMode.both))) ∧
    runRenderActions sEnd postRenderActions = ⟨false, false⟩ ∧
    (∀ i : Fin postRenderActions.length,
      postRenderActions.get i = RenderAction.publishFrameAction →
      runRenderActions sEnd (postRenderActions.take i.val) = ⟨false, false⟩) := by
  refine ⟨?_, ?_, rfl, ?_⟩
  · cases ok <;> cases mode <;> simp [preRenderTargetUpdate]
  · cases ok <;> cases mode <;> simp [preRenderTargetUpdate]
  · intro i hpub
    fin_cases i <;> simp_all [postRenderActions, runRenderActions, applyRenderAction]

/-- C8 witness: with a valid camera and mode both, the background surface is
visible at pass start; ending a pass from fully-visible surfaces hides
both. -/
theorem C8_render_pass_witness :
    (preRenderTargetUpdate true RenderMode.both ⟨false, false⟩).bg = true ∧
    runRenderActions ⟨true, true⟩ postRenderActions = ⟨false, false⟩ :=
  ⟨(C8_render_pass true RenderMode.both ⟨false, false⟩ ⟨true, true⟩).1.mpr
      ⟨rfl, Or.inr rfl⟩,
   (C8_render_pass true RenderMode.both ⟨false, false⟩ ⟨true, true⟩).2.2.1⟩

/-- C9: whenever publishFrame proceeds (a topic is advertised), the
allocated read-back buffer holds at least width*height*bytesPerPixel bytes
for the queried dimensions — the allocation is the queried size with a 5
percent safety margin (datasize * 21 / 20, the exact-rational model of the
source's datasize * 1.05) — and the PixelBox handed to the read-back and
the bytes copied out are sized by those same queried dimensions, so the
read-back fits the buffer even if the window is resized between the size
query and the read-back. -/
theorem C9_capture_buffer (topic : String) (width height pixelsize : ℕ)
    (c : CaptureAlloc) (h : publishFrame topic width height pixelsize = some c) :
    width * height * pixelsize ≤ c.allocSize ∧
    c.dataBytes = width * height * pixelsize ∧
    c.boxW = width ∧ c.boxH = height ∧
    c.allocSize = width * height * pixelsize * 21 / 20 := by
  unfold publishFrame at h
  split at h
  · cases h
  · cases h
    refine ⟨?_, rfl, rfl, rfl, rfl⟩
    show width * height * pixelsize ≤ width * height * pixelsize * 21 / 20
    omega

/-- C9 witness: a 640x480 RGB8 capture allocates 967680 bytes, at least the
921600 bytes read back. -/
theorem C9_capture_buffer_witness :
    640 * 480 * 3 ≤ 967680 ∧ (921600 : ℕ) = 640 * 480 * 3 :=
  ⟨(C9_capture_buffer "rviz_out" 640 480 3 ⟨967680, 640, 480, 921600⟩ rfl).1,
   (C9_capture_buffer "rviz_out" 640 480 3 ⟨967680, 640, 480, 921600⟩ rfl).2.1⟩

/-- C10: every subscribe that proceeds (display enabled and a non-empty
image topic configured) advertises the output video stream on the fixed
topic "rviz_out"; the advertised topic never depends on the configuration,
so it is identical across all configurations. -/
theorem C10_fixed_output_topic (cfg cfg2 : DisplayConfig) :
    (cfg.enabled = true → cfg.imageTopic ≠ "" →
      subscribeAdvertised cfg = some "rviz_out") ∧
    (∀ t t2, subscribeAdvertised cfg = some t →
      subscribeAdvertised cfg2 = some t2 → t = t2) := by
  constructor
  · intro he ht
    unfold subscribeAdvertised
    rw [if_neg (by simp [he, ht])]
  · intro t t2 h1 h2
    unfold subscribeAdvertised at h1 h2
    split at h1
    · cases h1
    · cases h1
      split at h2
      · cases h2
      · cases h2
        rfl

/-- C10 witness: an enabled display with a configured image topic advertises
exactly "rviz_out". -/
theorem C10_fixed_output_topic_witness :
    subscribeAdvertised ⟨true, "camera/image", "map", 2⟩ = some "rviz_out" :=
  (C10_fixed_output_topic ⟨true, "camera/image", "map", 2⟩
    ⟨true, "other", "odom", 1⟩).1 rfl (by decide)
